import Mathlib

/-!
Verification of the WebREPL protocol engine of scripto-studio-pro.

The development shallowly embeds the protocol code:
  * `src/unnamed/part_010` — protocol discrimination (`isCBORData`,
    `isLegacyWebREPL`, `isDAPMessage`, `detectProtocol`);
  * `src/src/protocols/webREPLCB.ts` — chunked TFTP-style file read;
  * `src/src/ai/aiBridge.ts` — the `WebREPLConnection` state machine
    (auth, raw-REPL execution, legacy binary file transfer, disconnect);
  * `src/src/webview/webreplBridge.ts` — both the extension-host side
    (`WebREPLBridgeWebview`: pending-operation registry, timers,
    disconnect) and the embedded in-webview `WebREPLBridge` state machine.

Stateful handlers are embedded as pure functions from a state and an
inbound frame to a new state plus an ordered list of emitted `Action`s
(events fired, promise resolutions/rejections, websocket sends, registry
mutations, timers armed).  `JSON.parse` is a JavaScript builtin, not code
of this repository; it is modelled as an oracle `jp : String → Option JsonObj`
passed to the handlers, returning the decoded `CMD` property when parsing
succeeds (`none` models both a parse exception and a falsy `CMD`
where the code tests truthiness).
-/

namespace Scripto

/-- The end-of-stream control byte 0x04 used by the raw REPL protocol. -/
def eofChar : Char := '\x04'

/-- String containing just the end-of-stream byte. -/
def eofStr : String := "\x04"

/-- Open-brace character as a string (JSON object opener). -/
def lbrace : String := "\x7b"

/-- The quoted command-tag key `"CMD"` searched for by
`WebREPLConnection._onWebSocketMessage`. -/
def cmdTag : String := "\"CMD\""

/-- JavaScript `hay.includes(needle)`: substring containment. -/
def strContains (hay needle : String) : Bool :=
  decide (needle.toList <:+: hay.toList)

/-- JavaScript `s.startsWith(pre)`, computed on the character list so
that it reduces in the kernel. -/
def jsStartsWith (s pre : String) : Bool := pre.toList.isPrefixOf s.toList

/-- JavaScript `s.trim()` (the handlers only ever meet ASCII whitespace). -/
def jsTrim (s : String) : String :=
  String.mk (((s.toList.dropWhile Char.isWhitespace).reverse.dropWhile
    Char.isWhitespace).reverse)

/-- JavaScript `s.substring(n)`. -/
def jsDrop (s : String) (n : Nat) : String := String.mk (s.toList.drop n)

/-- JavaScript `s.split('\x04')[0]`: the text before the first
end-of-stream byte (the whole string when there is none). -/
def beforeEof (s : String) : String :=
  String.mk (s.toList.takeWhile (fun c => c ≠ eofChar))

/-- JavaScript `s.split('\x04').slice(1).join('\x04')`: the text after the
first end-of-stream byte. -/
def afterEof (s : String) : String :=
  String.mk ((s.toList.dropWhile (fun c => c ≠ eofChar)).drop 1)

/-- Does the string contain the end-of-stream byte? -/
def hasEof (s : String) : Bool := s.toList.contains eofChar

end Scripto

namespace Scripto

/-- `detectProtocol`'s classification result (`ProtocolType` in
`src/unnamed/part_010`). -/
inductive ProtocolType where
  | LEGACY_WEBREPL
  | WEBREPL_CB
  | DAP
  | UNKNOWN
  deriving DecidableEq, Repr

/-- An inbound transport frame, tagged text or binary by the WebSocket
layer (bytes are modelled as naturals below 256). -/
inductive WireFrame where
  | text (s : String)
  | binary (bytes : List Nat)
  deriving DecidableEq, Repr

/-- `isCBORData` (src/unnamed/part_010:345): a binary frame whose first
byte is a CBOR array opener 0x80–0x9F (the code's redundant second
disjunct `firstByte === 0x9F` is kept). -/
def isCBORData (data : List Nat) : Bool :=
  match data with
  | [] => false
  | firstByte :: _ =>
      (decide (0x80 ≤ firstByte) && decide (firstByte ≤ 0x9F)) || firstByte == 0x9F

/-- `isLegacyWebREPL` (src/unnamed/part_010:365): first two bytes are the
legacy magic `'W'` (0x57) then `'A'` (0x41) or `'B'` (0x42). -/
def isLegacyWebREPL (data : List Nat) : Bool :=
  match data with
  | b0 :: b1 :: _ => b0 == 0x57 && (b1 == 0x41 || b1 == 0x42)
  | _ => false

/-- `isDAPMessage` (src/unnamed/part_010:379): text beginning with a
Content-Length header, in either capitalisation the code accepts. -/
def isDAPMessage (text : String) : Bool :=
  jsStartsWith text "Content-Length:" || jsStartsWith text "content-length:"

/-- `detectProtocol` (src/unnamed/part_010:423): text frames are tested
for the DAP header; binary frames for the CBOR opener and then the legacy
magic; everything else is `UNKNOWN` (the function never throws). -/
def detectProtocol : WireFrame → ProtocolType
  | .text s => if isDAPMessage s then .DAP else .UNKNOWN
  | .binary bytes =>
      if isCBORData bytes then .WEBREPL_CB
      else if isLegacyWebREPL bytes then .LEGACY_WEBREPL
      else .UNKNOWN

end Scripto

namespace Scripto

/-- Connection lifecycle state (`WebREPLState` in aiBridge.ts and the
`webreplState` field of the in-webview bridge). -/
inductive WsState where
  | DISCONNECTED | CONNECTING | AUTHENTICATING | CONNECTED
  deriving DecidableEq, Repr

/-- Raw-REPL execution sub-state (`REPLState`). -/
inductive ReplState where
  | IDLE | ENTERING_RAW | RAW_REPL_READY | WAITING_OK | RUNNING | GOT_FIRST_EOF
  deriving DecidableEq, Repr

/-- Kind of a pending legacy binary file operation. -/
inductive FileOpKind where
  | GET | PUT
  deriving DecidableEq, Repr

/-- Result of `JSON.parse` on a frame, restricted to what the handlers
read: the `CMD` property.  `cmd = none` models an absent (or falsy)
`CMD`; a parse exception is modelled by the oracle returning `none`
for the whole object. -/
structure JsonObj where
  cmd : Option String
  deriving DecidableEq, Repr

/-- Observable effects emitted by the embedded handlers, in program
order within one synchronous handler invocation. -/
inductive Action where
  /-- `_notifyData` / `postMessage({type:'data'})`: terminal output event. -/
  | notifyData (data : String) (isError : Bool)
  /-- `rawReplResolve(result)`: the pending execution promise resolves. -/
  | resolveExec (result : String)
  /-- `rawReplReject(msg)`: the pending execution promise rejects. -/
  | rejectExec (msg : String)
  /-- A broadcast command event fired (AUTO-INFO / DISPLAY-UI / PLOT-DATA-UPDATE). -/
  | broadcast (cmd : String)
  /-- A pending command handler (by command tag) resolved. -/
  | resolveCommand (cmd : String)
  /-- `postMessage({type:'showPrompt'})`. -/
  | showPrompt
  /-- Data written to the websocket. -/
  | sendWs (data : String)
  /-- `websocket.close()`: the transport torn down. -/
  | closeWs
  /-- Host-side registry: `pendingOperations.delete(id)`. -/
  | regRemove (id : String)
  /-- Host-side registry: the operation's resolve callback invoked. -/
  | settleResolve (id : String)
  /-- Host-side registry: the operation's reject callback invoked. -/
  | settleReject (id : String) (msg : String)
  /-- Legacy file op: `pendingFileOp.resolve(bytes)` (empty for PUT). -/
  | fileResolve (bytes : List Nat)
  /-- Legacy file op: `pendingFileOp.reject(msg)`. -/
  | fileReject (msg : String)
  /-- Legacy file op: `pendingFileOp = null`. -/
  | slotClear
  /-- A polling interval armed (`setInterval(checkReady, 100)`). -/
  | armInterval
  /-- A one-shot fallback timer armed (`setTimeout(..., ms)`). -/
  | armFallbackTimer (ms : Nat)
  /-- The pending connect call resolves. -/
  | resolveConnect
  /-- The pending connect call rejects. -/
  | rejectConnect (msg : String)
  /-- `_onConnected.fire()` / `postMessage({type:'connected'})`. -/
  | fireConnected
  /-- `_onDisconnected.fire()` / `postMessage({type:'disconnected'})`. -/
  | fireDisconnected
  /-- A message posted from the host to the bridge webview. -/
  | postToWebview (ty : String)
  /-- Chunked read: `sendMessage(FILES, ACK, blockNum)`. -/
  | ackBlock (blockNum : Nat)
  deriving DecidableEq, Repr

/-- Is the action a terminal-output (data) event? -/
def Action.isNotify : Action → Bool
  | .notifyData _ _ => true
  | _ => false

/-- Does the action settle (resolve or reject) some pending promise? -/
def Action.isSettle : Action → Bool
  | .resolveExec _ => true
  | .rejectExec _ => true
  | .resolveCommand _ => true
  | .settleResolve _ => true
  | .settleReject _ _ => true
  | .fileResolve _ => true
  | .fileReject _ => true
  | .resolveConnect => true
  | .rejectConnect _ => true
  | _ => false

/-- Mutable state of one connection state machine.  The same shape is
shared by the extension-host `WebREPLConnection` (aiBridge.ts) and the
in-webview `WebREPLBridge` (webreplBridge.ts): both keep the connection
state, raw-REPL sub-state, accumulation buffer, silent-mode flag,
captured JSON frame, the single pending execution (`rawReplResolve`
non-null is modelled by `hasPendingExec`), the command-tag keyed pending
command map (keys only), and the single-slot pending legacy file op. -/
structure BridgeState where
  webreplState : WsState
  replState : ReplState
  password : String
  rawReplBuffer : String
  silentMode : Bool
  jsonResponse : Option String
  hasPendingExec : Bool
  pendingCommands : List String
  pendingFileOp : Option FileOpKind
  codeSentTimestamp : Nat
  replTimeout : Nat
  deriving DecidableEq, Repr

/-- Is a command tag one of the broadcast tags
(`_isBroadcastCommand`, identical in both implementations)? -/
def isBroadcastCmd (cmd : Option String) : Bool :=
  cmd == some "AUTO-INFO" || cmd == some "PLOT-DATA-UPDATE" || cmd == some "DISPLAY-UI"

/-- `_handleCommandResponse` (aiBridge.ts:1156 and webreplBridge.ts:701,
identical logic): broadcast tags fire their event; any other tag
resolves the matching pending command, removing it from the map first. -/
def handleCommandResponse (s : BridgeState) (obj : JsonObj) :
    BridgeState × List Action :=
  match obj.cmd with
  | none => (s, [])
  | some c =>
      if c = "AUTO-INFO" then (s, [.broadcast c])
      else if c = "PLOT-DATA-UPDATE" then (s, [.broadcast c])
      else if c = "DISPLAY-UI" then (s, [.broadcast c])
      else if s.pendingCommands.contains c then
        ({ s with pendingCommands := s.pendingCommands.erase c }, [.resolveCommand c])
      else (s, [])

end Scripto

namespace Scripto

/-- The JSON.parse oracle type (see the file header). -/
def JsonParse := String → Option JsonObj

/-- `WebREPLConnection._handleRawReplMessage`, `GOT_FIRST_EOF` branch
(aiBridge.ts:1118): stderr accumulates in `rawReplBuffer`; on the second
end-of-stream byte the part before it is displayed (non-silent) and the
pending execution resolves with it, or with the captured JSON frame in
silent mode. -/
def aiGotFirstEof (s : BridgeState) (text : String) : BridgeState × List Action :=
  let buf := s.rawReplBuffer ++ text
  if hasEof buf then
    let errorOutput := beforeEof buf
    let dispActs : List Action :=
      if !s.silentMode && errorOutput ≠ "" then [.notifyData errorOutput true] else []
    let resultState :=
      if s.silentMode then
        match s.jsonResponse with
        | some j => (j, { s with jsonResponse := none })
        | none => (errorOutput, s)
      else (errorOutput, s)
    let s1 := { resultState.2 with replState := .RAW_REPL_READY, rawReplBuffer := "" }
    if s1.hasPendingExec then
      ({ s1 with hasPendingExec := false }, dispActs ++ [.resolveExec resultState.1])
    else (s1, dispActs)
  else ({ s with rawReplBuffer := buf }, [])

/-- `WebREPLConnection._handleRawReplMessage`, `RUNNING` branch
(aiBridge.ts:1090): stdout accumulates in `rawReplBuffer`; on the first
end-of-stream byte the part before it is displayed, the state moves to
`GOT_FIRST_EOF`, the buffer is set to the remainder, and — when the
remainder is non-empty — the handler re-enters with the remainder (which
the `GOT_FIRST_EOF` branch appends to the buffer again). -/
def aiRunning (s : BridgeState) (text : String) : BridgeState × List Action :=
  let buf := s.rawReplBuffer ++ text
  if hasEof buf then
    let output := beforeEof buf
    let remaining := afterEof buf
    let acts : List Action :=
      if !s.silentMode && output ≠ "" then [.notifyData output false] else []
    let s1 := { s with replState := .GOT_FIRST_EOF, rawReplBuffer := remaining }
    if remaining ≠ "" then
      let next := aiGotFirstEof s1 remaining
      (next.1, acts ++ next.2)
    else (s1, acts)
  else ({ s with rawReplBuffer := buf }, [])

/-- `WebREPLConnection._handleRawReplMessage` (aiBridge.ts:1034),
dispatching on the raw-REPL sub-state.  `now` is `Date.now()` at the
moment the frame is handled. -/
def aiHandleRawRepl (jp : JsonParse) (now : Nat) (s : BridgeState) (text : String) :
    BridgeState × List Action :=
  match s.replState with
  | .ENTERING_RAW =>
      let buf := s.rawReplBuffer ++ text
      if strContains buf "raw REPL" && strContains buf ">" then
        ({ s with replState := .RAW_REPL_READY, rawReplBuffer := "" }, [])
      else ({ s with rawReplBuffer := buf }, [])
  | .RAW_REPL_READY =>
      let trimmed := jsTrim text
      if jsStartsWith trimmed lbrace && strContains trimmed cmdTag then
        match jp trimmed with
        | some obj => handleCommandResponse s obj
        | none => (s, [])
      else (s, [])
  | .WAITING_OK =>
      if now - s.codeSentTimestamp > s.replTimeout then
        let s1 := { s with replState := .RAW_REPL_READY }
        if s1.hasPendingExec then
          ({ s1 with hasPendingExec := false },
            [.rejectExec "Timeout waiting for REPL response"])
        else (s1, [])
      else if jsStartsWith text "OK" then
        let s1 := { s with replState := .RUNNING }
        let remainingData := jsDrop text 2
        if remainingData = "" then (s1, []) else aiRunning s1 remainingData
      else (s, [])
  | .RUNNING => aiRunning s text
  | .GOT_FIRST_EOF => aiGotFirstEof s text
  | .IDLE => (s, [])

/-- Guard of the structured-frame interception in
`WebREPLConnection._onWebSocketMessage` (aiBridge.ts:942): the trimmed
frame starts with an open brace, contains the quoted `CMD` key, and
`JSON.parse` succeeds. -/
def aiStructuredGuard (jp : JsonParse) (raw : String) : Bool :=
  jsStartsWith (jsTrim raw) lbrace && strContains (jsTrim raw) cmdTag && (jp (jsTrim raw)).isSome

/-- `WebREPLConnection._onWebSocketMessage`, text path (aiBridge.ts:931):
structured frames are dispatched via `_handleCommandResponse`, captured
for a silent execution's return value when appropriate, and dropped
before any terminal display; everything else flows to the raw-REPL state
machine (or, outside raw-REPL states, straight to the data listeners). -/
def aiOnTextMessage (jp : JsonParse) (now : Nat) (s : BridgeState) (raw : String) :
    BridgeState × List Action :=
  let trimmed := jsTrim raw
  let replDispatch : BridgeState × List Action :=
    if s.replState = .ENTERING_RAW ∨ s.replState = .RAW_REPL_READY ∨
        s.replState = .WAITING_OK ∨ s.replState = .RUNNING ∨
        s.replState = .GOT_FIRST_EOF then
      aiHandleRawRepl jp now s raw
    else (s, [.notifyData raw false])
  if jsStartsWith trimmed lbrace && strContains trimmed cmdTag then
    match jp trimmed with
    | some obj =>
        let next := handleCommandResponse s obj
        let s2 :=
          if next.1.silentMode && next.1.hasPendingExec && !isBroadcastCmd obj.cmd then
            { next.1 with jsonResponse := some raw }
          else next.1
        (s2, next.2)
    | none => replDispatch
  else replDispatch

/-- `WebREPLConnection._handleBinaryMessage` (aiBridge.ts:981): legacy
`WB` responses settle the single pending file operation; note the code
invokes the resolve/reject callback first and clears the slot after.
Bytes are little-endian as in the source. -/
def aiHandleBinary (s : BridgeState) (data : List Nat) : BridgeState × List Action :=
  match data with
  | b0 :: b1 :: b2 :: b3 :: rest =>
      if b0 = 0x57 ∧ b1 = 0x42 then
        let status := b2 + b3 * 256
        match s.pendingFileOp with
        | none => (s, [])
        | some kind =>
            if status ≠ 0 then
              ({ s with pendingFileOp := none },
                [.fileReject "File operation failed", .slotClear])
            else
              match kind with
              | .GET =>
                  match rest with
                  | l0 :: l1 :: l2 :: l3 :: fileData =>
                      let fileSize := l0 + l1 * 256 + l2 * 65536 + l3 * 16777216
                      if fileData.length = fileSize then
                        ({ s with pendingFileOp := none },
                          [.fileResolve fileData, .slotClear])
                      else
                        ({ s with pendingFileOp := none },
                          [.fileReject "File size mismatch", .slotClear])
                  | _ =>
                      ({ s with pendingFileOp := none },
                        [.fileReject "Invalid GET response (too short)", .slotClear])
              | .PUT =>
                  ({ s with pendingFileOp := none }, [.fileResolve [], .slotClear])
      else (s, [])
  | _ => (s, [])

/-- `WebREPLConnection.disconnect` (aiBridge.ts:820), direct-socket path:
closes the transport, resets the lifecycle state and fires the
disconnected event.  It does not touch `pendingFileOp`,
`pendingCommands` or the pending execution. -/
def aiDisconnect (s : BridgeState) : BridgeState × List Action :=
  ({ s with webreplState := .DISCONNECTED, replState := .IDLE },
    [.closeWs, .fireDisconnected])

/-- `WebREPLConnection._handleAuthMessage` (aiBridge.ts:873): password
prompt, success banner (with or without `raw REPL`), or denial.  On a
success banner without `raw REPL` the client sends Ctrl+A and arms only
the 100 ms polling interval — no bounded fallback timer. -/
def aiHandleAuth (s : BridgeState) (data : String) : BridgeState × List Action :=
  if strContains data "Password:" then
    ({ s with webreplState := .AUTHENTICATING }, [.sendWs (s.password ++ "\r")])
  else if strContains data ">>>" || strContains data "WebREPL connected" ||
      strContains data "raw REPL" then
    let s1 := { s with webreplState := .CONNECTED }
    if strContains data "raw REPL" then
      ({ s1 with replState := .RAW_REPL_READY }, [.fireConnected, .resolveConnect])
    else
      ({ s1 with replState := .ENTERING_RAW, rawReplBuffer := "" },
        [.sendWs "\x01", .armInterval])
  else if strContains data "Access denied" then
    let next := aiDisconnect s
    (next.1, [.rejectConnect "Authentication failed - incorrect password"] ++ next.2)
  else (s, [])

end Scripto

namespace Scripto

/-- In-webview `WebREPLBridge._handleRawReplMessage`, `GOT_FIRST_EOF`
branch (webreplBridge.ts:662): frames are atomic (no accumulation); the
second end-of-stream byte completes execution, resolving the pending
call with the captured JSON frame or the empty string (never the stderr
text, which is only displayed), then resets silent mode. -/
def wvGotFirstEof (s : BridgeState) (frame : String) : BridgeState × List Action :=
  if hasEof frame then
    let stderr := beforeEof frame
    let dispActs : List Action :=
      if !s.silentMode && jsTrim stderr ≠ "" then [.notifyData stderr true] else []
    let s1 := { s with replState := .RAW_REPL_READY }
    let next : BridgeState × List Action :=
      if s1.hasPendingExec then
        ({ s1 with hasPendingExec := false },
          [.resolveExec (s1.jsonResponse.getD "")])
      else (s1, [])
    ({ next.1 with silentMode := false, jsonResponse := none },
      dispActs ++ next.2 ++ [.showPrompt])
  else
    (s, if !s.silentMode && jsTrim frame ≠ "" then [.notifyData frame true] else [])

/-- In-webview `WebREPLBridge._handleRawReplMessage`, `RUNNING` branch
(webreplBridge.ts:634): the frame before the first end-of-stream byte is
stdout; the remainder of the same frame is handed to the
`GOT_FIRST_EOF` branch. -/
def wvRunning (s : BridgeState) (frame : String) : BridgeState × List Action :=
  if hasEof frame then
    let stdout := beforeEof frame
    let remaining := afterEof frame
    let acts : List Action :=
      if !s.silentMode && jsTrim stdout ≠ "" then [.notifyData stdout false] else []
    let s1 := { s with replState := .GOT_FIRST_EOF }
    if remaining ≠ "" then
      let next := wvGotFirstEof s1 remaining
      (next.1, acts ++ next.2)
    else (s1, acts)
  else
    (s, if !s.silentMode && jsTrim frame ≠ "" then [.notifyData frame false] else [])

/-- In-webview `WebREPLBridge._handleRawReplMessage`
(webreplBridge.ts:585), dispatching on the raw-REPL sub-state.  Only
`ENTERING_RAW` accumulates into `rawReplBuffer`. -/
def wvHandleRawRepl (now : Nat) (s : BridgeState) (frame : String) :
    BridgeState × List Action :=
  match s.replState with
  | .ENTERING_RAW =>
      let buf := s.rawReplBuffer ++ frame
      if strContains buf "raw REPL" && strContains buf ">" then
        ({ s with replState := .RAW_REPL_READY, rawReplBuffer := "" }, [.showPrompt])
      else ({ s with rawReplBuffer := buf }, [])
  | .RAW_REPL_READY => (s, [])
  | .WAITING_OK =>
      if now - s.codeSentTimestamp > s.replTimeout then
        let s1 := { s with replState := .RAW_REPL_READY }
        if s1.hasPendingExec then
          ({ s1 with hasPendingExec := false }, [.rejectExec "Timeout"])
        else (s1, [])
      else if jsStartsWith frame "OK" then
        let s1 := { s with replState := .RUNNING }
        let remaining := jsDrop frame 2
        if remaining = "" then (s1, []) else wvRunning s1 remaining
      else (s, [])
  | .RUNNING => wvRunning s frame
  | .GOT_FIRST_EOF => wvGotFirstEof s frame
  | .IDLE => (s, [])

/-- In-webview `WebREPLBridge._handleMessage`, text path
(webreplBridge.ts:521): a frame whose trimmed text starts with an open
brace and parses to a JSON object with a truthy `CMD` is handled as a
command response, optionally captured for a silent execution, completes
any in-flight execution with the captured frame, and is never displayed;
all other frames flow to the raw-REPL state machine (or to the data
listeners outside raw-REPL states). -/
def wvOnTextMessage (jp : JsonParse) (now : Nat) (s : BridgeState) (raw : String) :
    BridgeState × List Action :=
  let trimmed := jsTrim raw
  let replDispatch : BridgeState × List Action :=
    if s.replState = .ENTERING_RAW ∨ s.replState = .RAW_REPL_READY ∨
        s.replState = .WAITING_OK ∨ s.replState = .RUNNING ∨
        s.replState = .GOT_FIRST_EOF then
      wvHandleRawRepl now s raw
    else (s, [.notifyData raw false])
  let parsed : Option JsonObj :=
    if jsStartsWith trimmed lbrace then jp trimmed else none
  match parsed with
  | some obj =>
      match obj.cmd with
      | some _ =>
          let next := handleCommandResponse s obj
          let s2 :=
            if next.1.silentMode && next.1.hasPendingExec && !isBroadcastCmd obj.cmd then
              { next.1 with jsonResponse := some raw }
            else next.1
          if s2.replState = .RUNNING ∨ s2.replState = .GOT_FIRST_EOF ∨
              s2.replState = .WAITING_OK then
            let s3 := { s2 with replState := .RAW_REPL_READY }
            let comp : BridgeState × List Action :=
              if s3.hasPendingExec then
                ({ s3 with hasPendingExec := false },
                  [.resolveExec (s3.jsonResponse.getD "")])
              else (s3, [])
            ({ comp.1 with silentMode := false, jsonResponse := none },
              next.2 ++ comp.2 ++ [.showPrompt])
          else (s2, next.2)
      | none => replDispatch
  | none => replDispatch

/-- In-webview `WebREPLBridge._handleBinaryMessage`
(webreplBridge.ts:730): like the connection-manager version, but a GET
success response whose payload length differs from the declared length
is silently dropped — the pending operation is left in place and nothing
is resolved or rejected. -/
def wvHandleBinary (s : BridgeState) (data : List Nat) : BridgeState × List Action :=
  match data with
  | b0 :: b1 :: b2 :: b3 :: rest =>
      if b0 = 0x57 ∧ b1 = 0x42 then
        let status := b2 + b3 * 256
        match s.pendingFileOp with
        | none => (s, [])
        | some kind =>
            if status ≠ 0 then
              ({ s with pendingFileOp := none },
                [.fileReject "File operation failed", .slotClear])
            else
              match kind with
              | .GET =>
                  match rest with
                  | l0 :: l1 :: l2 :: l3 :: fileData =>
                      let fileSize := l0 + l1 * 256 + l2 * 65536 + l3 * 16777216
                      if fileData.length = fileSize then
                        ({ s with pendingFileOp := none },
                          [.fileResolve fileData, .slotClear])
                      else (s, [])
                  | _ => (s, [])
              | .PUT =>
                  ({ s with pendingFileOp := none }, [.fileResolve [], .slotClear])
      else (s, [])
  | _ => (s, [])

/-- In-webview `WebREPLBridge.execRaw` code rewriting
(webreplBridge.ts:760): a non-empty trimmed submission containing none
of `print`, `=`, `import`, `(` is wrapped in `print(...)`; everything
else is sent as supplied. -/
def wvCodeToSend (code : String) : String :=
  let trimmedCode := jsTrim code
  if trimmedCode ≠ "" &&
      !strContains trimmedCode "print" &&
      !strContains trimmedCode "=" &&
      !strContains trimmedCode "import" &&
      !strContains trimmedCode "(" then
    "print(" ++ trimmedCode ++ ")"
  else code

/-- The single websocket message `execRaw` sends
(webreplBridge.ts:781): the (possibly rewritten) code followed by the
end-of-stream byte. -/
def wvExecRawSend (code : String) : String :=
  wvCodeToSend code ++ eofStr

/-- In-webview `WebREPLBridge._handleAuthMessage`
(webreplBridge.ts:457): on a success banner without `raw REPL`, the
client forwards the banner, sends Ctrl+A, arms the 100 ms polling
interval and a 5000 ms fallback timer that will assume raw mode. -/
def wvHandleAuth (s : BridgeState) (data : String) : BridgeState × List Action :=
  if strContains data "Password:" then
    ({ s with webreplState := .AUTHENTICATING }, [.sendWs (s.password ++ "\r")])
  else if strContains data ">>>" || strContains data "WebREPL connected" ||
      strContains data "raw REPL" then
    let s1 := { s with webreplState := .CONNECTED }
    if strContains data "raw REPL" then
      ({ s1 with replState := .RAW_REPL_READY },
        [.fireConnected, .showPrompt, .resolveConnect])
    else
      ({ s1 with replState := .ENTERING_RAW, rawReplBuffer := "" },
        (if !s.silentMode then [.notifyData data false] else []) ++
          [.sendWs "\x01", .armInterval, .armFallbackTimer 5000])
  else if strContains data "Access denied" then
    ({ s with webreplState := .DISCONNECTED, replState := .IDLE },
      [.rejectConnect "Authentication failed", .closeWs])
  else (s, [])

/-- Firing of the webview's 5-second raw-REPL-entry fallback timer
(webreplBridge.ts:501): if raw mode is still unconfirmed, the client
assumes it is active — the state is forced to ready and the connect call
resolves. -/
def wvRawFallbackFire (s : BridgeState) : BridgeState × List Action :=
  if s.replState ≠ .RAW_REPL_READY then
    ({ s with replState := .RAW_REPL_READY }, [.fireConnected, .resolveConnect])
  else (s, [])

end Scripto

namespace Scripto

/-- Extension-host `WebREPLBridgeWebview.handleMessage`, `result` case
(webreplBridge.ts:163): a result message for a known request id deletes
the registry entry first and then invokes its resolve or reject
callback; an unknown id is a no-op.  The registry is modelled by its
set of pending request ids. -/
def hostHandleResult (reg : List String) (requestId : String) (error : Option String) :
    List String × List Action :=
  if reg.contains requestId then
    (reg.erase requestId,
      [.regRemove requestId] ++
        match error with
        | some e => [.settleReject requestId e]
        | none => [.settleResolve requestId])
  else (reg, [])

/-- The per-operation timeout armed by the extension-host wrappers
(e.g. `execRaw`, webreplBridge.ts:221): on firing, an id still pending
is deleted and then rejected with the operation's timeout message. -/
def hostTimeoutFire (reg : List String) (requestId : String) (msg : String) :
    List String × List Action :=
  if reg.contains requestId then
    (reg.erase requestId, [.regRemove requestId, .settleReject requestId msg])
  else (reg, [])

/-- Extension-host `WebREPLBridgeWebview.disconnect`
(webreplBridge.ts:201): posts a `disconnect` message to the webview and
nothing else — the pending-operation registry is not walked and no entry
is rejected. -/
def hostDisconnect (reg : List String) : List String × List Action :=
  (reg, [.postToWebview "disconnect"])

/-- In-webview `WebREPLBridge.disconnect` (webreplBridge.ts:964): closes
the socket and resets the lifecycle state; pending commands, the pending
file operation and a pending execution are left untouched. -/
def wvDisconnect (s : BridgeState) : BridgeState × List Action :=
  ({ s with webreplState := .DISCONNECTED, replState := .IDLE }, [.closeWs])

end Scripto

namespace Scripto

/-- TFTP block size used by `WebREPLCBHandler.readFile`
(webREPLCB.ts:146). -/
def tftpBlockSize : Nat := 4096

/-- Outcome of a chunked read. -/
inductive TftpOutcome where
  /-- The promise resolved with the concatenated bytes. -/
  | resolved (bytes : List Nat)
  /-- The promise rejected with a device error message. -/
  | rejected (msg : String)
  deriving DecidableEq, Repr

/-- State of one in-progress chunked read (`TFTPTransfer` plus the
promise).  `blocks` models the JavaScript array `transfer.data` indexed
by block number, `none` being a hole; `settled` records the first
settlement of the promise (later settle calls on a JS promise are
no-ops); `crashed` records the concatenation loop having thrown on a
hole (after which the promise can never settle: the timeout was already
cleared). -/
structure TftpState where
  blocks : List (Option (List Nat))
  settled : Option TftpOutcome
  crashed : Bool
  deriving DecidableEq, Repr

/-- The initial transfer state built by `readFile` (webREPLCB.ts:144). -/
def tftpInit : TftpState := ⟨[], none, false⟩

/-- JavaScript `arr[i] = x` on an array, extending with holes when `i`
is beyond the current length. -/
def setSlot (l : List (Option (List Nat))) (i : Nat) (x : List Nat) :
    List (Option (List Nat)) :=
  if i < l.length then l.set i (some x)
  else l ++ List.replicate (i - l.length) none ++ [some x]

/-- A message delivered to the `readFile` channel handler
(webREPLCB.ts:161): a DATA block, an ERROR, or any other opcode
(ignored). -/
inductive TftpMsg where
  | data (blockNum : Nat) (bytes : List Nat)
  | error (msg : String)
  | other
  deriving DecidableEq, Repr

/-- Record a settlement on the promise (first one wins). -/
def TftpState.settle (s : TftpState) (o : TftpOutcome) : TftpState :=
  match s.settled with
  | some _ => s
  | none => { s with settled := some o }

/-- One step of the `readFile` channel handler (webREPLCB.ts:161): a
DATA block is stored at its block number and acknowledged; a block
shorter than the nominal size (or empty) completes the transfer, at
which point the accumulated blocks are concatenated in index order — the
JavaScript `for...of` loop throws on a hole, which is modelled by
`crashed`.  An ERROR opcode rejects with the device message. -/
def tftpStep (s : TftpState) (m : TftpMsg) : TftpState × List Action :=
  match m with
  | .data blockNum bytes =>
      let blocks := setSlot s.blocks blockNum bytes
      let s1 := { s with blocks := blocks }
      if bytes.length = 0 ∨ bytes.length < tftpBlockSize then
        if blocks.all (fun b => b.isSome) then
          (s1.settle (.resolved (blocks.filterMap id).flatten), [.ackBlock blockNum])
        else ({ s1 with crashed := true }, [.ackBlock blockNum])
      else (s1, [.ackBlock blockNum])
  | .error msg => (s.settle (.rejected msg), [])
  | .other => (s, [])

/-- Run the handler over a sequence of inbound messages. -/
def tftpRun (s : TftpState) (msgs : List TftpMsg) : TftpState :=
  msgs.foldl (fun st m => (tftpStep st m).1) s

/-- The DATA messages of a device streaming blocks numbered from `i`
upwards, in order (the protocol tolerates no reordering). -/
def tftpStreamFrom : Nat → List (List Nat) → List TftpMsg
  | _, [] => []
  | i, b :: bs => TftpMsg.data i b :: tftpStreamFrom (i + 1) bs

/-- The message sequence of a device streaming blocks `0, 1, 2, …`. -/
def tftpStream (blks : List (List Nat)) : List TftpMsg :=
  tftpStreamFrom 0 blks

end Scripto

namespace Scripto

/-- Is the action the arming of a one-shot fallback timer? -/
def Action.isArmFallback : Action → Bool
  | .armFallbackTimer _ => true
  | _ => false

/-- Run a sequence of inbound text frames through the in-webview bridge,
collecting the emitted actions in order. -/
def wvRunFrames (jp : JsonParse) (now : Nat) (s : BridgeState)
    (frames : List String) : BridgeState × List Action :=
  frames.foldl
    (fun acc f =>
      let next := wvOnTextMessage jp now acc.1 f
      (next.1, acc.2 ++ next.2))
    (s, [])

end Scripto

namespace Scripto

/-- C4: protocol discrimination is total and disjoint — every binary
frame with the legacy `W`/`A`-or-`B` magic routes to legacy transfer,
every frame whose leading byte is in the CBOR array range 0x80–0x9F
routes to the channelized handler, every text frame starting with a
Content-Length header routes to the debug bridge, anything else is
classified `UNKNOWN` without throwing, and no input satisfies two
classifiers simultaneously. -/
theorem detectProtocol_total_disjoint :
    (∀ b : List Nat, isLegacyWebREPL b = true →
      detectProtocol (.binary b) = .LEGACY_WEBREPL) ∧
    (∀ b : List Nat, isCBORData b = true →
      detectProtocol (.binary b) = .WEBREPL_CB) ∧
    (∀ t : String, isDAPMessage t = true → detectProtocol (.text t) = .DAP) ∧
    (∀ b : List Nat, isCBORData b = false → isLegacyWebREPL b = false →
      detectProtocol (.binary b) = .UNKNOWN) ∧
    (∀ t : String, isDAPMessage t = false → detectProtocol (.text t) = .UNKNOWN) ∧
    (∀ b : List Nat, ¬(isCBORData b = true ∧ isLegacyWebREPL b = true)) := by
  have disj : ∀ b : List Nat, isLegacyWebREPL b = true → isCBORData b = false := by
    intro b hl
    match b with
    | [] => simp [isLegacyWebREPL] at hl
    | [b0] => simp [isLegacyWebREPL] at hl
    | b0 :: b1 :: rest =>
        simp only [isLegacyWebREPL, Bool.and_eq_true, beq_iff_eq] at hl
        simp only [isCBORData, Bool.or_eq_false_iff, Bool.and_eq_false_iff,
          beq_eq_false_iff_ne, ne_eq, decide_eq_false_iff_not, not_le]
        omega
  refine ⟨?_, ?_, ?_, ?_, ?_, ?_⟩
  · intro b hl
    simp [detectProtocol, disj b hl, hl]
  · intro b hc
    simp [detectProtocol, hc]
  · intro t ht
    simp [detectProtocol, ht]
  · intro b hc hl
    simp [detectProtocol, hc, hl]
  · intro t ht
    simp [detectProtocol, ht]
  · intro b ⟨hc, hl⟩
    rw [disj b hl] at hc
    exact Bool.false_ne_true hc

/-- Witness for C4 at concrete frames: a legacy `WA` response header, a
CBOR three-element array header, a DAP text frame, and an unroutable
frame. -/
theorem detectProtocol_total_disjoint_witness :
    (isLegacyWebREPL [0x57, 0x41, 0, 0] = true ∧
      detectProtocol (.binary [0x57, 0x41, 0, 0]) = .LEGACY_WEBREPL) ∧
    (isCBORData [0x83, 23, 3, 1] = true ∧
      detectProtocol (.binary [0x83, 23, 3, 1]) = .WEBREPL_CB) ∧
    (isDAPMessage "Content-Length: 2\r\n\r\n42" = true ∧
      detectProtocol (.text "Content-Length: 2\r\n\r\n42") = .DAP) ∧
    detectProtocol (.binary [0x00, 0x01]) = .UNKNOWN ∧
    ¬(isCBORData [0x57, 0x42] = true ∧ isLegacyWebREPL [0x57, 0x42] = true) :=
  ⟨⟨by decide, detectProtocol_total_disjoint.1 _ (by decide)⟩,
    ⟨by decide, detectProtocol_total_disjoint.2.1 _ (by decide)⟩,
    ⟨by decide, detectProtocol_total_disjoint.2.2.1 _ (by decide)⟩,
    detectProtocol_total_disjoint.2.2.2.1 _ (by decide) (by decide),
    detectProtocol_total_disjoint.2.2.2.2.2 _⟩

end Scripto

namespace Scripto

/-- C10: the webview bridge rewrites submitted code before sending — a
code string whose trimmed form is non-empty and contains none of
`print`, `=`, `import`, `(` is sent as `print(` + trimmed code + `)`
followed by the end-of-stream byte; every other code string is sent
unmodified (followed by the end-of-stream byte). -/
theorem wvExecRaw_rewrite (code : String) :
    (jsTrim code ≠ "" →
      strContains (jsTrim code) "print" = false →
      strContains (jsTrim code) "=" = false →
      strContains (jsTrim code) "import" = false →
      strContains (jsTrim code) "(" = false →
      wvExecRawSend code = "print(" ++ jsTrim code ++ ")" ++ eofStr) ∧
    ((jsTrim code = "" ∨ strContains (jsTrim code) "print" = true ∨
        strContains (jsTrim code) "=" = true ∨
        strContains (jsTrim code) "import" = true ∨
        strContains (jsTrim code) "(" = true) →
      wvExecRawSend code = code ++ eofStr) := by
  constructor
  · intro h1 h2 h3 h4 h5
    simp [wvExecRawSend, wvCodeToSend, h1, h2, h3, h4, h5]
  · intro h
    rcases h with h | h | h | h | h <;>
      simp [wvExecRawSend, wvCodeToSend, h]

/-- Witness for C10: the expression `1 + 2` is wrapped in `print(...)`,
while an assignment is sent verbatim. -/
theorem wvExecRaw_rewrite_witness :
    (jsTrim " 1 + 2 " ≠ "" ∧
      strContains (jsTrim " 1 + 2 ") "print" = false ∧
      strContains (jsTrim " 1 + 2 ") "=" = false ∧
      strContains (jsTrim " 1 + 2 ") "import" = false ∧
      strContains (jsTrim " 1 + 2 ") "(" = false) ∧
    wvExecRawSend " 1 + 2 " = "print(" ++ jsTrim " 1 + 2 " ++ ")" ++ eofStr ∧
    wvExecRawSend " 1 + 2 " ≠ " 1 + 2 " ++ eofStr ∧
    strContains (jsTrim "y = 1") "=" = true ∧
    wvExecRawSend "y = 1" = "y = 1" ++ eofStr :=
  ⟨⟨by decide, by decide, by decide, by decide, by decide⟩,
    (wvExecRaw_rewrite " 1 + 2 ").1 (by decide) (by decide) (by decide)
      (by decide) (by decide),
    by decide,
    by decide,
    (wvExecRaw_rewrite "y = 1").2 (Or.inr (Or.inr (Or.inl (by decide))))⟩

end Scripto

namespace Scripto

theorem tftpRun_cons (s : TftpState) (m : TftpMsg) (ms : List TftpMsg) :
    tftpRun s (m :: ms) = tftpRun (tftpStep s m).1 ms := rfl

theorem tftpRun_append (s : TftpState) (m1 m2 : List TftpMsg) :
    tftpRun s (m1 ++ m2) = tftpRun (tftpRun s m1) m2 := by
  simp [tftpRun, List.foldl_append]

theorem setSlot_snoc (acc : List (List Nat)) (b : List Nat) :
    setSlot (acc.map some) acc.length b = (acc ++ [b]).map some := by
  simp [setSlot]

theorem tftpStreamFrom_append (xs ys : List (List Nat)) :
    ∀ i : Nat, tftpStreamFrom i (xs ++ ys) =
      tftpStreamFrom i xs ++ tftpStreamFrom (i + xs.length) ys := by
  induction xs with
  | nil => intro i; simp [tftpStreamFrom]
  | cons x xs ih =>
      intro i
      have h2 : i + (x :: xs).length = i + 1 + xs.length := by
        simp only [List.length_cons]
        omega
      simp only [List.cons_append, tftpStreamFrom, List.append_eq, ih (i + 1), h2]

/-- Streaming only nominal-size blocks leaves the transfer pending: each
block is stored at its index and acknowledged, and nothing settles. -/
theorem tftpRun_full_blocks (blks : List (List Nat)) :
    ∀ acc : List (List Nat), (∀ b ∈ blks, b.length = tftpBlockSize) →
      tftpRun ⟨acc.map some, none, false⟩ (tftpStreamFrom acc.length blks) =
        ⟨(acc ++ blks).map some, none, false⟩ := by
  induction blks with
  | nil => intro acc _; simp [tftpRun, tftpStreamFrom]
  | cons b bs ih =>
      intro acc h
      have hb : b.length = tftpBlockSize := h b (by simp)
      have hbs : ∀ x ∈ bs, x.length = tftpBlockSize := fun x hx => h x (by simp [hx])
      have hstep :
          (tftpStep ⟨acc.map some, none, false⟩ (.data acc.length b)).1 =
            ⟨(acc ++ [b]).map some, none, false⟩ := by
        simp [tftpStep, setSlot_snoc, hb, tftpBlockSize]
      rw [tftpStreamFrom, tftpRun_cons, hstep]
      have := ih (acc ++ [b]) hbs
      simp only [List.length_append, List.length_singleton, List.append_assoc,
        List.singleton_append] at this
      exact this

/-- C3: a chunked `readFile` completes exactly when a data block
strictly shorter than the 4096-byte nominal size arrives — any stream of
nominal-size blocks leaves the transfer unsettled, and the stream
followed by one short (possibly empty) block resolves the promise with
the concatenation of all blocks in block-number order. -/
theorem tftp_readFile_completes (full : List (List Nat)) (lastB : List Nat)
    (hfull : ∀ b ∈ full, b.length = tftpBlockSize)
    (hlast : lastB.length < tftpBlockSize) :
    (∀ k : Nat, (tftpRun tftpInit (tftpStream (full.take k))).settled = none) ∧
    tftpRun tftpInit (tftpStream (full ++ [lastB])) =
      ⟨(full ++ [lastB]).map some,
        some (.resolved (full ++ [lastB]).flatten), false⟩ := by
  constructor
  · intro k
    have h := tftpRun_full_blocks (full.take k) []
      (fun b hb => hfull b (List.take_subset _ _ hb))
    simp only [List.map_nil, List.length_nil, List.nil_append] at h
    rw [tftpStream, show tftpInit = (⟨[], none, false⟩ : TftpState) from rfl, h]
  · rw [tftpStream, tftpStreamFrom_append]
    have h := tftpRun_full_blocks full [] hfull
    simp only [List.map_nil, List.length_nil, List.nil_append] at h
    rw [show tftpInit = (⟨[], none, false⟩ : TftpState) from rfl, tftpRun_append, h]
    have hall2 : ∀ x ∈ setSlot (List.map some full) full.length lastB, x.isSome = true := by
      rw [setSlot_snoc]
      intro x hx
      rcases List.mem_map.mp hx with ⟨y, _, rfl⟩
      rfl
    simp only [Nat.zero_add, tftpStreamFrom, tftpRun_cons, tftpRun]
    simp [tftpStep, setSlot_snoc, hlast, hall2, TftpState.settle,
      List.filterMap_map, Function.comp, List.map_append, List.flatten_append]
    rw [if_pos hall2]

end Scripto

namespace Scripto

/-- Witness for C3, the spec's example: three 4096-byte blocks followed
by one 512-byte block resolve with a buffer of exactly 12800 bytes. -/
theorem tftp_readFile_completes_witness :
    (∀ b ∈ [List.replicate 4096 7, List.replicate 4096 8, List.replicate 4096 9],
        b.length = tftpBlockSize) ∧
    (List.replicate 512 1 : List Nat).length < tftpBlockSize ∧
    tftpRun tftpInit
        (tftpStream ([List.replicate 4096 7, List.replicate 4096 8,
          List.replicate 4096 9] ++ [List.replicate 512 1])) =
      ⟨([List.replicate 4096 7, List.replicate 4096 8, List.replicate 4096 9] ++
          [List.replicate 512 1]).map some,
        some (.resolved ([List.replicate 4096 7, List.replicate 4096 8,
          List.replicate 4096 9] ++ [List.replicate 512 1]).flatten), false⟩ ∧
    ([List.replicate 4096 7, List.replicate 4096 8, List.replicate 4096 9] ++
        [List.replicate 512 1]).flatten.length = 12800 := by
  have hfull : ∀ b ∈ [List.replicate 4096 7, List.replicate 4096 8,
      List.replicate 4096 9], b.length = tftpBlockSize := by
    intro b hb
    simp only [List.mem_cons, List.not_mem_nil, or_false] at hb
    rcases hb with rfl | rfl | rfl <;>
      · rw [List.length_replicate]
        rfl
  have hlast : (List.replicate 512 1 : List Nat).length < tftpBlockSize := by
    rw [List.length_replicate]
    decide
  refine ⟨hfull, hlast, (tftp_readFile_completes _ _ hfull hlast).2, ?_⟩
  rw [List.cons_append, List.cons_append, List.cons_append, List.nil_append,
    List.flatten_cons, List.flatten_cons, List.flatten_cons, List.flatten_cons,
    List.flatten_nil, List.append_nil, List.length_append, List.length_append,
    List.length_append, List.length_replicate, List.length_replicate,
    List.length_replicate, List.length_replicate]

end Scripto

namespace Scripto

theorem handleCommandResponse_no_notify (s : BridgeState) (obj : JsonObj) :
    ∀ a ∈ (handleCommandResponse s obj).2, a.isNotify = false := by
  intro a ha
  unfold handleCommandResponse at ha
  rcases obj with ⟨_ | c⟩
  · simp at ha
  · dsimp at ha
    split_ifs at ha <;> simp_all [Action.isNotify]

/-- C2: a structured frame — one whose trimmed text begins with an open
brace and carries a recognized command tag — is dispatched through
`_handleCommandResponse` (broadcast or pending-command resolution) ahead
of any consideration for the execution's return value, and is never
emitted to the data-event listeners, in every execution sub-state of
both implementations. -/
theorem structured_frames_never_terminal_output :
    (∀ (jp : JsonParse) (now : Nat) (s : BridgeState) (raw : String) (obj : JsonObj),
      jsStartsWith (jsTrim raw) lbrace = true →
      strContains (jsTrim raw) cmdTag = true →
      jp (jsTrim raw) = some obj →
      (aiOnTextMessage jp now s raw).2 = (handleCommandResponse s obj).2 ∧
      ∀ a ∈ (aiOnTextMessage jp now s raw).2, a.isNotify = false) ∧
    (∀ (jp : JsonParse) (now : Nat) (s : BridgeState) (raw : String)
        (obj : JsonObj) (c : String),
      jsStartsWith (jsTrim raw) lbrace = true →
      jp (jsTrim raw) = some obj →
      obj.cmd = some c →
      (∃ tail, (wvOnTextMessage jp now s raw).2 =
          (handleCommandResponse s obj).2 ++ tail) ∧
      ∀ a ∈ (wvOnTextMessage jp now s raw).2, a.isNotify = false) := by
  constructor
  · intro jp now s raw obj h1 h2 h3
    have hacts : (aiOnTextMessage jp now s raw).2 = (handleCommandResponse s obj).2 := by
      simp only [aiOnTextMessage, h1, h2, h3, Bool.and_self, if_true]
    exact ⟨hacts, by
      rw [hacts]
      exact handleCommandResponse_no_notify s obj⟩
  · intro jp now s raw obj c h1 h3 hcmd
    obtain ⟨cmdv⟩ := obj
    simp only [JsonObj.mk.injEq] at hcmd
    subst hcmd
    refine ⟨?_, ?_⟩
    · simp only [wvOnTextMessage, h1, h3, if_true]
      split <;> (try split) <;>
        first
          | exact ⟨_, List.append_assoc _ _ _⟩
          | exact ⟨[], (List.append_nil _).symm⟩
    · intro a ha
      simp only [wvOnTextMessage, h1, h3, if_true] at ha
      split at ha <;> (try split at ha) <;>
        first
          | exact handleCommandResponse_no_notify s ⟨some c⟩ a ha
          | (simp only [List.mem_append, List.mem_singleton] at ha
             rcases ha with (ha3 | ha3) | ha3
             · exact handleCommandResponse_no_notify s ⟨some c⟩ a ha3
             · split at ha3
               · simp only [List.mem_singleton] at ha3
                 rw [ha3]
                 rfl
               · simp at ha3
             · rw [ha3]
               rfl)

end Scripto

namespace Scripto

/-- Witness for C2: a concrete `SYS-INFO` command frame arriving during
`RUNNING` is dispatched (resolving the pending `SYS-INFO` command) and
never reaches the data-event listeners, in both implementations. -/
theorem structured_frames_never_terminal_output_witness :
    (jsStartsWith (jsTrim "\x7b\"CMD\":\"SYS-INFO\"\x7d") lbrace = true ∧
      strContains (jsTrim "\x7b\"CMD\":\"SYS-INFO\"\x7d") cmdTag = true ∧
      (fun str => if str = "\x7b\"CMD\":\"SYS-INFO\"\x7d" then
          some (⟨some "SYS-INFO"⟩ : JsonObj) else none)
        (jsTrim "\x7b\"CMD\":\"SYS-INFO\"\x7d") = some ⟨some "SYS-INFO"⟩) ∧
    ((aiOnTextMessage
        (fun str => if str = "\x7b\"CMD\":\"SYS-INFO\"\x7d" then
          some (⟨some "SYS-INFO"⟩ : JsonObj) else none) 5
        ⟨.CONNECTED, .RUNNING, "pw", "", false, none, true, ["SYS-INFO"], none, 0, 15000⟩
        "\x7b\"CMD\":\"SYS-INFO\"\x7d").2 =
      (handleCommandResponse
        ⟨.CONNECTED, .RUNNING, "pw", "", false, none, true, ["SYS-INFO"], none, 0, 15000⟩
        ⟨some "SYS-INFO"⟩).2 ∧
      ∀ a ∈ (aiOnTextMessage
        (fun str => if str = "\x7b\"CMD\":\"SYS-INFO\"\x7d" then
          some (⟨some "SYS-INFO"⟩ : JsonObj) else none) 5
        ⟨.CONNECTED, .RUNNING, "pw", "", false, none, true, ["SYS-INFO"], none, 0, 15000⟩
        "\x7b\"CMD\":\"SYS-INFO\"\x7d").2, a.isNotify = false) ∧
    (∃ tail, (wvOnTextMessage
        (fun str => if str = "\x7b\"CMD\":\"SYS-INFO\"\x7d" then
          some (⟨some "SYS-INFO"⟩ : JsonObj) else none) 5
        ⟨.CONNECTED, .RUNNING, "pw", "", false, none, true, ["SYS-INFO"], none, 0, 15000⟩
        "\x7b\"CMD\":\"SYS-INFO\"\x7d").2 =
      (handleCommandResponse
        ⟨.CONNECTED, .RUNNING, "pw", "", false, none, true, ["SYS-INFO"], none, 0, 15000⟩
        ⟨some "SYS-INFO"⟩).2 ++ tail) :=
  ⟨⟨by decide, by decide, by decide⟩,
    structured_frames_never_terminal_output.1 _ 5 _ _ _
      (by decide) (by decide) (by decide),
    (structured_frames_never_terminal_output.2 _ 5 _ _ _ "SYS-INFO"
      (by decide) (by decide) rfl).1⟩

end Scripto

namespace Scripto

theorem hasEof_append (a b : String) : hasEof (a ++ b) = (hasEof a || hasEof b) := by
  simp only [hasEof, String.toList, String.data_append]
  by_cases h1 : eofChar ∈ a.data <;> by_cases h2 : eofChar ∈ b.data <;>
    simp [List.contains_eq_any_beq, h1, h2, List.mem_append]

/-- Counterexample to C1: in the webview bridge, a non-silent execution
that completes via the second end-of-stream byte resolves with the empty
string, not with the stderr text. Starting just after code submission
(`WAITING_OK`, non-silent, a pending execution), the frames `OK` and
`hello∖x04err∖x04` produce stderr `err` on the data listeners but
resolve the execution with `""`. -/
theorem exec_resolves_stderr_counterexample :
    (wvRunFrames (fun _ => none) 0
        ⟨.CONNECTED, .WAITING_OK, "pw", "", false, none, true, [], none, 0, 15000⟩
        ["OK", "hello\x04err\x04"]).2 =
      [.notifyData "hello" false, .notifyData "err" true,
        .resolveExec "", .showPrompt] ∧
    Action.resolveExec "err" ∉
      (wvRunFrames (fun _ => none) 0
        ⟨.CONNECTED, .WAITING_OK, "pw", "", false, none, true, [], none, 0, 15000⟩
        ["OK", "hello\x04err\x04"]).2 := by
  decide

end Scripto

namespace Scripto
/-- C1 as amended: on completion via the second end-of-stream byte, the
webview bridge resolves the pending execution with the captured
structured frame's text, or the empty string — never the plain stderr;
the `WebREPLConnection` path resolves with the accumulated stderr before
the second end-of-stream byte (the captured frame's text in silent
mode), but a non-empty partial stderr segment arriving in the same frame
as the first end-of-stream byte is appended to the stderr buffer twice
and so is duplicated in the resolved text. -/
theorem exec_resolution_amended :
    (∀ (now : Nat) (s : BridgeState) (frame : String),
      s.replState = .GOT_FIRST_EOF → s.hasPendingExec = true →
      hasEof frame = true →
      (wvHandleRawRepl now s frame).2 =
        (if !s.silentMode && jsTrim (beforeEof frame) ≠ "" then
          [.notifyData (beforeEof frame) true] else []) ++
        [.resolveExec (s.jsonResponse.getD ""), .showPrompt]) ∧
    (∀ (jp : JsonParse) (now : Nat) (s : BridgeState) (frame : String),
      s.replState = .GOT_FIRST_EOF → s.hasPendingExec = true →
      s.silentMode = false → hasEof (s.rawReplBuffer ++ frame) = true →
      (aiHandleRawRepl jp now s frame).2 =
        (if beforeEof (s.rawReplBuffer ++ frame) ≠ "" then
          [.notifyData (beforeEof (s.rawReplBuffer ++ frame)) true] else []) ++
        [.resolveExec (beforeEof (s.rawReplBuffer ++ frame))]) ∧
    (∀ (jp : JsonParse) (now : Nat) (s : BridgeState) (frame : String) (j : String),
      s.replState = .GOT_FIRST_EOF → s.hasPendingExec = true →
      s.silentMode = true → s.jsonResponse = some j →
      hasEof (s.rawReplBuffer ++ frame) = true →
      (aiHandleRawRepl jp now s frame).2 = [.resolveExec j]) ∧
    (∀ (jp : JsonParse) (now : Nat) (s : BridgeState) (frame : String),
      s.replState = .RUNNING →
      hasEof (s.rawReplBuffer ++ frame) = true →
      afterEof (s.rawReplBuffer ++ frame) ≠ "" →
      hasEof (afterEof (s.rawReplBuffer ++ frame)) = false →
      (aiHandleRawRepl jp now s frame).1.replState = .GOT_FIRST_EOF ∧
      (aiHandleRawRepl jp now s frame).1.rawReplBuffer =
        afterEof (s.rawReplBuffer ++ frame) ++ afterEof (s.rawReplBuffer ++ frame)) := by
  refine ⟨?_, ?_, ?_, ?_⟩
  · intro now s frame h1 h2 h3
    simp only [wvHandleRawRepl, h1, wvGotFirstEof, h3, if_true, h2]
    simp [List.append_assoc]
  · intro jp now s frame h1 h2 h3 h4
    simp only [aiHandleRawRepl, h1, aiGotFirstEof, h4, if_true, h2, h3]
    simp [h2]
  · intro jp now s frame j h1 h2 h3 h4 h5
    simp only [aiHandleRawRepl, h1, aiGotFirstEof, h5, if_true, h2, h3, h4]
    simp
  · intro jp now s frame h1 h2 h3 h4
    have hdup : hasEof (afterEof (s.rawReplBuffer ++ frame) ++
        afterEof (s.rawReplBuffer ++ frame)) = false := by
      rw [hasEof_append, h4]
      rfl
    simp only [aiHandleRawRepl, h1, aiRunning, h2, if_true, h3, aiGotFirstEof]
    simp [hdup, h3]

end Scripto

namespace Scripto

/-- Witness for the amended C1 at concrete runs: the webview path
resolves `""`; the connection-manager path resolves the accumulated
stderr `err` (or the captured frame `J` in silent mode); and a frame
carrying the first end-of-stream byte plus the partial stderr `er`
leaves the buffer doubled to `erer`. -/
theorem exec_resolution_amended_witness :
    ((⟨.CONNECTED, .GOT_FIRST_EOF, "", "", false, none, true, [], none, 0, 15000⟩ :
        BridgeState).replState = .GOT_FIRST_EOF ∧
      hasEof "err\x04" = true ∧
      hasEof ("er" ++ "r\x04") = true ∧
      afterEof ("" ++ "out\x04er") ≠ "" ∧
      hasEof (afterEof ("" ++ "out\x04er")) = false) ∧
    (wvHandleRawRepl 0
        ⟨.CONNECTED, .GOT_FIRST_EOF, "", "", false, none, true, [], none, 0, 15000⟩
        "err\x04").2 =
      [.notifyData "err" true, .resolveExec "", .showPrompt] ∧
    (aiHandleRawRepl (fun _ => none) 0
        ⟨.CONNECTED, .GOT_FIRST_EOF, "", "er", false, none, true, [], none, 0, 15000⟩
        "r\x04").2 =
      [.notifyData "err" true, .resolveExec "err"] ∧
    (aiHandleRawRepl (fun _ => none) 0
        ⟨.CONNECTED, .GOT_FIRST_EOF, "", "er", true, some "J", true, [], none, 0, 15000⟩
        "r\x04").2 = [.resolveExec "J"] ∧
    (aiHandleRawRepl (fun _ => none) 0
        ⟨.CONNECTED, .RUNNING, "", "", false, none, true, [], none, 0, 15000⟩
        "out\x04er").1.rawReplBuffer = "erer" := by
  refine ⟨⟨rfl, by decide, by decide, by decide, by decide⟩, ?_, ?_, ?_, ?_⟩
  · rw [exec_resolution_amended.1 0 _ "err\x04" rfl rfl (by decide)]
    decide
  · rw [exec_resolution_amended.2.1 (fun _ => none) 0 _ "r\x04" rfl rfl rfl (by decide)]
    decide
  · rw [exec_resolution_amended.2.2.1 (fun _ => none) 0 _ "r\x04" "J" rfl rfl rfl rfl
      (by decide)]
  · rw [(exec_resolution_amended.2.2.2 (fun _ => none) 0 _ "out\x04er" rfl (by decide)
      (by decide) (by decide)).2]
    decide

end Scripto

namespace Scripto

/-- C5: when neither the `OK` acknowledgement nor completion arrived
within the execution timeout, the execution is rejected with a timeout
error and the state machine returns to ready — the connection state is
untouched and the transport is not closed; on the extension-host side,
the 30-second `execRaw` timer rejects the still-pending operation and
clears its registry entry without tearing anything down. -/
theorem exec_timeout_rejects_and_recovers :
    (∀ (jp : JsonParse) (now : Nat) (s : BridgeState) (raw : String),
      s.replState = .WAITING_OK → s.hasPendingExec = true →
      aiStructuredGuard jp raw = false →
      s.replTimeout < now - s.codeSentTimestamp →
      (aiOnTextMessage jp now s raw).1.replState = .RAW_REPL_READY ∧
      (aiOnTextMessage jp now s raw).1.webreplState = s.webreplState ∧
      (aiOnTextMessage jp now s raw).2 =
        [.rejectExec "Timeout waiting for REPL response"] ∧
      Action.closeWs ∉ (aiOnTextMessage jp now s raw).2) ∧
    (∀ (reg : List String) (id : String), reg.contains id = true →
      hostTimeoutFire reg id "Execution timeout" =
        (reg.erase id, [.regRemove id, .settleReject id "Execution timeout"]) ∧
      Action.closeWs ∉ (hostTimeoutFire reg id "Execution timeout").2) := by
  constructor
  · intro jp now s raw h1 h2 hguard htime
    have hdisp : aiOnTextMessage jp now s raw = aiHandleRawRepl jp now s raw := by
      unfold aiStructuredGuard at hguard
      unfold aiOnTextMessage
      rcases hb : (jsStartsWith (jsTrim raw) lbrace && strContains (jsTrim raw) cmdTag)
        with _ | _
      · simp only [hb, Bool.false_eq_true, if_false, h1]
        simp [h1]
      · rcases hp : jp (jsTrim raw) with _ | obj
        · simp only [hb, if_true, hp]
          simp [h1]
        · rw [hb, hp] at hguard
          simp at hguard
      -- unreachable
    have htick : now - s.codeSentTimestamp > s.replTimeout := htime
    have hrepl : aiHandleRawRepl jp now s raw =
        ({ { s with replState := .RAW_REPL_READY } with hasPendingExec := false },
          [.rejectExec "Timeout waiting for REPL response"]) := by
      simp only [aiHandleRawRepl, h1]
      rw [if_pos htick]
      simp [h2]
    rw [hdisp, hrepl]
    refine ⟨rfl, rfl, rfl, by simp⟩
  · intro reg id h
    unfold hostTimeoutFire
    rw [if_pos h]
    exact ⟨rfl, by simp⟩

end Scripto

namespace Scripto

/-- Witness for C5: a non-structured frame arriving 20 s after
submission (timeout 15 s) rejects the execution and restores readiness;
the host timer rejects the pending `exec-1` entry. -/
theorem exec_timeout_rejects_and_recovers_witness :
    ((⟨.CONNECTED, .WAITING_OK, "", "", false, none, true, [], none, 0, 15000⟩ :
        BridgeState).replState = .WAITING_OK ∧
      aiStructuredGuard (fun _ => none) "x" = false ∧
      (15000 : Nat) < 20000 - 0 ∧
      (["exec-1"] : List String).contains "exec-1" = true) ∧
    ((aiOnTextMessage (fun _ => none) 20000
        ⟨.CONNECTED, .WAITING_OK, "", "", false, none, true, [], none, 0, 15000⟩
        "x").1.replState = .RAW_REPL_READY ∧
      (aiOnTextMessage (fun _ => none) 20000
        ⟨.CONNECTED, .WAITING_OK, "", "", false, none, true, [], none, 0, 15000⟩
        "x").1.webreplState = .CONNECTED ∧
      (aiOnTextMessage (fun _ => none) 20000
        ⟨.CONNECTED, .WAITING_OK, "", "", false, none, true, [], none, 0, 15000⟩
        "x").2 = [.rejectExec "Timeout waiting for REPL response"] ∧
      Action.closeWs ∉ (aiOnTextMessage (fun _ => none) 20000
        ⟨.CONNECTED, .WAITING_OK, "", "", false, none, true, [], none, 0, 15000⟩
        "x").2) ∧
    hostTimeoutFire ["exec-1"] "exec-1" "Execution timeout" =
      ((["exec-1"] : List String).erase "exec-1",
        [.regRemove "exec-1", .settleReject "exec-1" "Execution timeout"]) :=
  ⟨⟨rfl, by decide, by decide, by decide⟩,
    ⟨(exec_timeout_rejects_and_recovers.1 (fun _ => none) 20000 _ "x" rfl rfl
        (by decide) (by decide)).1,
      (exec_timeout_rejects_and_recovers.1 (fun _ => none) 20000 _ "x" rfl rfl
        (by decide) (by decide)).2.1,
      (exec_timeout_rejects_and_recovers.1 (fun _ => none) 20000 _ "x" rfl rfl
        (by decide) (by decide)).2.2.1,
      (exec_timeout_rejects_and_recovers.1 (fun _ => none) 20000 _ "x" rfl rfl
        (by decide) (by decide)).2.2.2⟩,
    (exec_timeout_rejects_and_recovers.2 ["exec-1"] "exec-1" (by decide)).1⟩

end Scripto

namespace Scripto

/-- Counterexample to C6: disconnect does not reject pending work.  The
host-side `disconnect` with the operation `exec-42` still pending leaves
the registry unchanged and settles nothing, and the connection-manager
`disconnect` leaves a pending GET file operation and a pending execution
in place while settling nothing. -/
theorem disconnect_rejects_pending_counterexample :
    (hostDisconnect ["exec-42"]).1 = ["exec-42"] ∧
    (∀ a ∈ (hostDisconnect ["exec-42"]).2, a.isSettle = false) ∧
    (aiDisconnect ⟨.CONNECTED, .RUNNING, "", "", false, none, true, [],
        some .GET, 0, 15000⟩).1.pendingFileOp = some .GET ∧
    (aiDisconnect ⟨.CONNECTED, .RUNNING, "", "", false, none, true, [],
        some .GET, 0, 15000⟩).1.hasPendingExec = true ∧
    ∀ a ∈ (aiDisconnect ⟨.CONNECTED, .RUNNING, "", "", false, none, true, [],
        some .GET, 0, 15000⟩).2, a.isSettle = false := by
  decide

/-- C6 as amended: `disconnect()` does not reject pending operations —
the host-side registry is left untouched (a mere `disconnect` message is
posted to the webview) and both bridges' teardown preserves the pending
file operation, pending commands and pending execution while settling
nothing; a pending entry is rejected only when its own per-operation
timer fires. -/
theorem disconnect_leaves_pending_amended :
    (∀ reg : List String, hostDisconnect reg = (reg, [.postToWebview "disconnect"])) ∧
    (∀ s : BridgeState,
      (aiDisconnect s).1.pendingFileOp = s.pendingFileOp ∧
      (aiDisconnect s).1.pendingCommands = s.pendingCommands ∧
      (aiDisconnect s).1.hasPendingExec = s.hasPendingExec ∧
      ∀ a ∈ (aiDisconnect s).2, a.isSettle = false) ∧
    (∀ s : BridgeState,
      (wvDisconnect s).1.pendingFileOp = s.pendingFileOp ∧
      (wvDisconnect s).1.pendingCommands = s.pendingCommands ∧
      (wvDisconnect s).1.hasPendingExec = s.hasPendingExec ∧
      ∀ a ∈ (wvDisconnect s).2, a.isSettle = false) ∧
    (∀ (reg : List String) (id msg : String), reg.contains id = true →
      hostTimeoutFire reg id msg =
        (reg.erase id, [.regRemove id, .settleReject id msg])) := by
  refine ⟨fun reg => rfl, fun s => ⟨rfl, rfl, rfl, ?_⟩, fun s => ⟨rfl, rfl, rfl, ?_⟩,
    fun reg id msg h => by rw [hostTimeoutFire, if_pos h]⟩
  · intro a ha
    simp only [aiDisconnect, List.mem_cons, List.not_mem_nil, or_false] at ha
    rcases ha with rfl | rfl <;> rfl
  · intro a ha
    simp only [wvDisconnect, List.mem_singleton] at ha
    rw [ha]
    rfl

/-- Witness for the amended C6: the host registry survives disconnect
untouched, and the later 30-second timer is what rejects `exec-42`. -/
theorem disconnect_leaves_pending_amended_witness :
    (["exec-42"] : List String).contains "exec-42" = true ∧
    hostDisconnect ["exec-42"] = (["exec-42"], [.postToWebview "disconnect"]) ∧
    hostTimeoutFire ["exec-42"] "exec-42" "Execution timeout" =
      ((["exec-42"] : List String).erase "exec-42",
        [.regRemove "exec-42", .settleReject "exec-42" "Execution timeout"]) :=
  ⟨by decide, disconnect_leaves_pending_amended.1 ["exec-42"],
    disconnect_leaves_pending_amended.2.2.2 ["exec-42"] "exec-42" "Execution timeout"
      (by decide)⟩

end Scripto

namespace Scripto

/-- C7 as amended: host-registry entries (`handleMessage` `result` case)
are removed from the registry before their callback is invoked and a
result for an unknown id is a no-op; the single-slot legacy file
operation is a no-op when no operation is pending and is settled at most
once per frame, with the slot cleared whenever it settles — though its
callback is invoked just before the slot is cleared, within the same
synchronous handler step. -/
theorem pending_settled_once_amended :
    (∀ (reg : List String) (id : String) (err : Option String),
      (reg.contains id = true →
        hostHandleResult reg id err =
          (reg.erase id, [.regRemove id] ++
            match err with
            | some e => [.settleReject id e]
            | none => [.settleResolve id])) ∧
      (reg.contains id = false → hostHandleResult reg id err = (reg, []))) ∧
    (∀ (s : BridgeState) (data : List Nat),
      s.pendingFileOp = none →
      aiHandleBinary s data = (s, []) ∧ wvHandleBinary s data = (s, [])) ∧
    (∀ (s : BridgeState) (data : List Nat),
      (aiHandleBinary s data).2.countP (fun a => a.isSettle) ≤ 1 ∧
      ((aiHandleBinary s data).2.countP (fun a => a.isSettle) = 1 →
        (aiHandleBinary s data).1.pendingFileOp = none)) := by
  refine ⟨?_, ?_, ?_⟩
  · intro reg id err
    constructor
    · intro h
      simp only [hostHandleResult]
      rw [if_pos h]
    · intro h
      have hn : ¬ reg.contains id = true := by
        rw [h]
        simp
      simp only [hostHandleResult]
      rw [if_neg hn]
  · intro s data h
    rcases data with _ | ⟨b0, _ | ⟨b1, _ | ⟨b2, _ | ⟨b3, rest⟩⟩⟩⟩ <;>
      try exact ⟨rfl, rfl⟩
    constructor <;>
      · simp only [aiHandleBinary, wvHandleBinary, h]
        split_ifs <;> rfl
  · intro s data
    rcases data with _ | ⟨b0, data⟩
    · exact ⟨by simp [aiHandleBinary], by simp [aiHandleBinary]⟩
    rcases data with _ | ⟨b1, data⟩
    · exact ⟨by simp [aiHandleBinary], by simp [aiHandleBinary]⟩
    rcases data with _ | ⟨b2, data⟩
    · exact ⟨by simp [aiHandleBinary], by simp [aiHandleBinary]⟩
    rcases data with _ | ⟨b3, rest⟩
    · exact ⟨by simp [aiHandleBinary], by simp [aiHandleBinary]⟩
    by_cases hmagic : b0 = 0x57 ∧ b1 = 0x42
    · rcases hslot : s.pendingFileOp with _ | kind
      · constructor <;>
          simp [aiHandleBinary, hmagic, hslot]
      · by_cases hstatus : b2 + b3 * 256 ≠ 0
        · constructor <;>
            simp [aiHandleBinary, hmagic, hslot, hstatus, Action.isSettle,
              List.countP_cons, List.countP_nil]
        · rcases kind
          · rcases rest with _ | ⟨l0, _ | ⟨l1, _ | ⟨l2, _ | ⟨l3, fileData⟩⟩⟩⟩ <;>
              constructor <;>
                · simp only [aiHandleBinary]
                  simp [hmagic, hslot, hstatus, Action.isSettle,
                    List.countP_cons, List.countP_nil]
                  try split_ifs <;>
                    simp [Action.isSettle, List.countP_cons, List.countP_nil]
          · constructor <;>
              simp [aiHandleBinary, hmagic, hslot, hstatus, Action.isSettle,
                List.countP_cons, List.countP_nil]
    · constructor <;>
        simp [aiHandleBinary, hmagic]

end Scripto

namespace Scripto

/-- Counterexample to C7: in `_handleBinaryMessage` the reject callback
of the pending file operation is invoked first and the slot is cleared
after — the emitted trace for an error-status `WB` response begins with
the callback, not with the removal. -/
theorem pending_removed_before_callback_counterexample :
    (aiHandleBinary
        ⟨.CONNECTED, .RAW_REPL_READY, "", "", false, none, false, [],
          some .GET, 0, 15000⟩
        [0x57, 0x42, 1, 0]).2 =
      [.fileReject "File operation failed", .slotClear] ∧
    (aiHandleBinary
        ⟨.CONNECTED, .RAW_REPL_READY, "", "", false, none, false, [],
          some .GET, 0, 15000⟩
        [0x57, 0x42, 1, 0]).2.head? =
      some (.fileReject "File operation failed") := by
  decide

/-- Witness for the amended C7: a known result id is removed before its
callback; a stale legacy response with no pending slot is a no-op; the
error-status frame settles exactly once and clears the slot. -/
theorem pending_settled_once_amended_witness :
    ((["getfile-7"] : List String).contains "getfile-7" = true ∧
      (["getfile-7"] : List String).contains "other" = false ∧
      (⟨.CONNECTED, .RAW_REPL_READY, "", "", false, none, false, [], none, 0,
        15000⟩ : BridgeState).pendingFileOp = none) ∧
    hostHandleResult ["getfile-7"] "getfile-7" none =
      ((["getfile-7"] : List String).erase "getfile-7",
        [.regRemove "getfile-7"] ++ [.settleResolve "getfile-7"]) ∧
    hostHandleResult ["getfile-7"] "other" none = (["getfile-7"], []) ∧
    aiHandleBinary
      ⟨.CONNECTED, .RAW_REPL_READY, "", "", false, none, false, [], none, 0, 15000⟩
      [0x57, 0x42, 0, 0, 2, 0, 0, 0, 9, 9] =
      (⟨.CONNECTED, .RAW_REPL_READY, "", "", false, none, false, [], none, 0,
        15000⟩, []) ∧
    (aiHandleBinary
      ⟨.CONNECTED, .RAW_REPL_READY, "", "", false, none, false, [],
        some .GET, 0, 15000⟩
      [0x57, 0x42, 1, 0]).2.countP (fun a => a.isSettle) ≤ 1 :=
  ⟨⟨by decide, by decide, rfl⟩,
    (pending_settled_once_amended.1 ["getfile-7"] "getfile-7" none).1 (by decide),
    (pending_settled_once_amended.1 ["getfile-7"] "other" none).2 (by decide),
    (pending_settled_once_amended.2.1 _ [0x57, 0x42, 0, 0, 2, 0, 0, 0, 9, 9] rfl).1,
    (pending_settled_once_amended.2.2 _ [0x57, 0x42, 1, 0]).1⟩

end Scripto

namespace Scripto

/-- Counterexample to C8: in the webview bridge, a legacy GET success
response whose declared length (5) differs from its payload length (3)
does not reject the pending `getFile` — it is silently dropped, the
operation stays pending, and a later well-formed response resolves the
same call. -/
theorem get_mismatch_rejects_counterexample :
    wvHandleBinary
        ⟨.CONNECTED, .RAW_REPL_READY, "", "", false, none, false, [],
          some .GET, 0, 15000⟩
        [0x57, 0x42, 0, 0, 5, 0, 0, 0, 1, 2, 3] =
      (⟨.CONNECTED, .RAW_REPL_READY, "", "", false, none, false, [],
        some .GET, 0, 15000⟩, []) ∧
    (wvHandleBinary
        ⟨.CONNECTED, .RAW_REPL_READY, "", "", false, none, false, [],
          some .GET, 0, 15000⟩
        [0x57, 0x42, 0, 0, 2, 0, 0, 0, 9, 9]).2 =
      [.fileResolve [9, 9], .slotClear] := by
  decide

/-- C8 as amended: a declared-length mismatch on a legacy GET success
response rejects the promise immediately in the `WebREPLConnection`
path, but in the webview bridge it is ignored — nothing is settled and
the operation remains pending, to be settled only by a later response or
by the host-side 30-second timeout; in neither path does a mismatched
response resolve with the mismatched payload. -/
theorem get_mismatch_amended :
    (∀ (s : BridgeState) (l0 l1 l2 l3 : Nat) (fileData : List Nat),
      s.pendingFileOp = some .GET →
      fileData.length ≠ l0 + l1 * 256 + l2 * 65536 + l3 * 16777216 →
      aiHandleBinary s (0x57 :: 0x42 :: 0 :: 0 :: l0 :: l1 :: l2 :: l3 :: fileData) =
        ({ s with pendingFileOp := none },
          [.fileReject "File size mismatch", .slotClear])) ∧
    (∀ (s : BridgeState) (l0 l1 l2 l3 : Nat) (fileData : List Nat),
      s.pendingFileOp = some .GET →
      fileData.length ≠ l0 + l1 * 256 + l2 * 65536 + l3 * 16777216 →
      wvHandleBinary s (0x57 :: 0x42 :: 0 :: 0 :: l0 :: l1 :: l2 :: l3 :: fileData) =
        (s, [])) ∧
    (∀ (reg : List String) (id : String), reg.contains id = true →
      hostTimeoutFire reg id "File get timeout" =
        (reg.erase id, [.regRemove id, .settleReject id "File get timeout"])) := by
  refine ⟨?_, ?_, ?_⟩
  · intro s l0 l1 l2 l3 fileData h h2
    simp [aiHandleBinary, h, h2]
  · intro s l0 l1 l2 l3 fileData h h2
    simp [wvHandleBinary, h, h2]
  · intro reg id h
    rw [hostTimeoutFire, if_pos h]

/-- Witness for the amended C8 at a declared length of 5 against a
3-byte payload. -/
theorem get_mismatch_amended_witness :
    ((⟨.CONNECTED, .RAW_REPL_READY, "", "", false, none, false, [],
        some .GET, 0, 15000⟩ : BridgeState).pendingFileOp = some .GET ∧
      ([1, 2, 3] : List Nat).length ≠ 5 + 0 * 256 + 0 * 65536 + 0 * 16777216 ∧
      (["getfile-3"] : List String).contains "getfile-3" = true) ∧
    aiHandleBinary
        ⟨.CONNECTED, .RAW_REPL_READY, "", "", false, none, false, [],
          some .GET, 0, 15000⟩
        (0x57 :: 0x42 :: 0 :: 0 :: 5 :: 0 :: 0 :: 0 :: [1, 2, 3]) =
      (⟨.CONNECTED, .RAW_REPL_READY, "", "", false, none, false, [],
        none, 0, 15000⟩, [.fileReject "File size mismatch", .slotClear]) ∧
    wvHandleBinary
        ⟨.CONNECTED, .RAW_REPL_READY, "", "", false, none, false, [],
          some .GET, 0, 15000⟩
        (0x57 :: 0x42 :: 0 :: 0 :: 5 :: 0 :: 0 :: 0 :: [1, 2, 3]) =
      (⟨.CONNECTED, .RAW_REPL_READY, "", "", false, none, false, [],
        some .GET, 0, 15000⟩, []) ∧
    hostTimeoutFire ["getfile-3"] "getfile-3" "File get timeout" =
      ((["getfile-3"] : List String).erase "getfile-3",
        [.regRemove "getfile-3", .settleReject "getfile-3" "File get timeout"]) :=
  ⟨⟨rfl, by decide, by decide⟩,
    get_mismatch_amended.1 _ 5 0 0 0 [1, 2, 3] rfl (by decide),
    get_mismatch_amended.2.1 _ 5 0 0 0 [1, 2, 3] rfl (by decide),
    get_mismatch_amended.2.2 ["getfile-3"] "getfile-3" (by decide)⟩

end Scripto

namespace Scripto

/-- Counterexample to C9: in the `WebREPLConnection` direct path, after
the success banner `>>>` the client sends Ctrl+A and arms only the
polling interval — no bounded fallback timer exists, so when the banner
never confirms raw mode the connection is never marked ready and the
connect call never resolves (here: a later junk frame leaves the machine
in `ENTERING_RAW` with no emitted action). -/
theorem raw_mode_assume_counterexample :
    (aiHandleAuth
        ⟨.CONNECTING, .IDLE, "pw", "", false, none, false, [], none, 0, 15000⟩
        ">>>").2 = [.sendWs "\x01", .armInterval] ∧
    ((aiHandleAuth
        ⟨.CONNECTING, .IDLE, "pw", "", false, none, false, [], none, 0, 15000⟩
        ">>>").2.all (fun a => !a.isArmFallback)) = true ∧
    (aiHandleAuth
        ⟨.CONNECTING, .IDLE, "pw", "", false, none, false, [], none, 0, 15000⟩
        ">>>").1.replState = .ENTERING_RAW ∧
    (aiOnTextMessage (fun _ => none) 999999999
        (aiHandleAuth
          ⟨.CONNECTING, .IDLE, "pw", "", false, none, false, [], none, 0, 15000⟩
          ">>>").1
        "junk").1.replState = .ENTERING_RAW ∧
    (aiOnTextMessage (fun _ => none) 999999999
        (aiHandleAuth
          ⟨.CONNECTING, .IDLE, "pw", "", false, none, false, [], none, 0, 15000⟩
          ">>>").1
        "junk").2 = [] := by
  decide

/-- C9 as amended: the webview bridge arms a 5000 ms fallback timer on
raw-mode entry whose firing, while raw mode is still unconfirmed, marks
the REPL ready and resolves the connect call (never rejecting it); the
`WebREPLConnection` direct path arms no such fallback and polls
indefinitely. -/
theorem raw_mode_assume_amended :
    (∀ (s : BridgeState) (data : String),
      strContains data "Password:" = false →
      strContains data "raw REPL" = false →
      strContains data ">>>" = true →
      Action.armFallbackTimer 5000 ∈ (wvHandleAuth s data).2 ∧
      (wvHandleAuth s data).1.replState = .ENTERING_RAW) ∧
    (∀ s : BridgeState, s.replState ≠ .RAW_REPL_READY →
      wvRawFallbackFire s =
        ({ s with replState := .RAW_REPL_READY }, [.fireConnected, .resolveConnect]) ∧
      (∀ m, Action.rejectConnect m ∉ (wvRawFallbackFire s).2)) ∧
    (∀ (s : BridgeState) (data : String),
      strContains data "Password:" = false →
      strContains data "raw REPL" = false →
      strContains data ">>>" = true →
      ((aiHandleAuth s data).2.all (fun a => !a.isArmFallback)) = true) := by
  refine ⟨?_, ?_, ?_⟩
  · intro s data h1 h2 h3
    simp [wvHandleAuth, h1, h2, h3]
  · intro s h
    have he : wvRawFallbackFire s =
        ({ s with replState := .RAW_REPL_READY }, [.fireConnected, .resolveConnect]) := by
      rw [wvRawFallbackFire, if_pos h]
    refine ⟨he, ?_⟩
    intro m
    rw [he]
    simp
  · intro s data h1 h2 h3
    simp [aiHandleAuth, h1, h2, h3, Action.isArmFallback]

/-- Witness for the amended C9 on the banner `>>>` and an unconfirmed
state. -/
theorem raw_mode_assume_amended_witness :
    (strContains ">>>" "Password:" = false ∧
      strContains ">>>" "raw REPL" = false ∧
      strContains ">>>" ">>>" = true ∧
      (⟨.CONNECTED, .ENTERING_RAW, "pw", "", false, none, false, [], none, 0,
        15000⟩ : BridgeState).replState ≠ .RAW_REPL_READY) ∧
    Action.armFallbackTimer 5000 ∈
      (wvHandleAuth
        ⟨.CONNECTING, .IDLE, "pw", "", false, none, false, [], none, 0, 15000⟩
        ">>>").2 ∧
    wvRawFallbackFire
        ⟨.CONNECTED, .ENTERING_RAW, "pw", "", false, none, false, [], none, 0,
          15000⟩ =
      (⟨.CONNECTED, .RAW_REPL_READY, "pw", "", false, none, false, [], none, 0,
        15000⟩, [.fireConnected, .resolveConnect]) ∧
    ((aiHandleAuth
        ⟨.CONNECTING, .IDLE, "pw", "", false, none, false, [], none, 0, 15000⟩
        ">>>").2.all (fun a => !a.isArmFallback)) = true :=
  ⟨⟨by decide, by decide, by decide, by decide⟩,
    (raw_mode_assume_amended.1 _ ">>>" (by decide) (by decide) (by decide)).1,
    (raw_mode_assume_amended.2.1 _ (by decide)).1,
    raw_mode_assume_amended.2.2 _ ">>>" (by decide) (by decide) (by decide)⟩

end Scripto
